import Mathlib

/-!
Formal model of the movie CRUD backend (`main.py`, `schemas.py`): storage
documents, the pydantic request models (`MovieIn`, `MovieUpdate`), the storage
schema (`schemas.Movie`), `serialize_movie`, and the four route handlers
operating on a document store.
-/

set_option maxHeartbeats 1000000

/-- A stored (BSON-like) value, covering the value shapes this system reads and
writes: null, strings, numbers (modelled exactly as rationals), string arrays
(the only array shape the system stores: genre lists), and the storage engine's
native identifiers (`ObjectId`). -/
inductive Value where
  | null
  | str (s : String)
  | num (q : ℚ)
  | arr (xs : List String)
  | oid (h : String)
deriving DecidableEq, Repr

/-- A storage document / Python dict: an association list from string keys to
values; `get` returns the first binding. -/
abbrev Doc := List (String × Value)

/-- `doc.get(k)` without default: `some v` when the key is present (even when
its value is null), `none` when absent. -/
def Doc.get : Doc → String → Option Value
  | [], _ => none
  | (k, v) :: d, k' => if k = k' then some v else Doc.get d k'

/-- `doc.get(k, default)`. -/
def Doc.getD (d : Doc) (k : String) (v₀ : Value) : Value :=
  (d.get k).getD v₀

/-- `doc[k] = v`: replace the first binding of `k`, or append one. -/
def Doc.set : Doc → String → Value → Doc
  | [], k, v => [(k, v)]
  | (k', v') :: d, k, v =>
      if k' = k then (k, v) :: d else (k', v') :: Doc.set d k v

/-- MongoDB `$set` with update document `u`: set each field of `u` in turn. -/
def Doc.applySet (d : Doc) (u : Doc) : Doc :=
  u.foldl (fun acc kv => acc.set kv.1 kv.2) d

/-- The keys of a document, in order. -/
def Doc.keys (d : Doc) : List String := d.map Prod.fst

/-- One field of a JSON request body: absent from the payload, explicitly
`null`, or a (well-typed) value.  Payloads are modelled as well-typed JSON;
pydantic's cross-type coercions are orthogonal to every property below. -/
inductive FieldIn (α : Type) where
  | absent
  | null
  | val (a : α)
deriving DecidableEq, Repr

/-- A raw request body for the movie resource (creation payloads and update
patches have the same five fields). -/
structure RawMovieInput where
  title : FieldIn String
  description : FieldIn String
  rating : FieldIn ℚ
  poster_url : FieldIn String
  genres : FieldIn (List String)
deriving DecidableEq, Repr

/-- Kinds of per-field validation failure (pydantic error kinds, under the
spec's taxonomy names where it has one). -/
inductive VKind where
  | required
  | tooShort
  | tooLong
  | outOfRange
  | invalidType
deriving DecidableEq, Repr

/-- The result of validating a creation payload (`MovieIn`), i.e. the state of
the pydantic model after validation: `description` defaults to `""` when
absent, and `None` values of optional fields are kept as `none`. -/
structure ValidatedMovie where
  title : String
  description : Option String
  rating : ℚ
  poster_url : Option String
  genres : Option (List String)
deriving DecidableEq, Repr

/-- `MovieIn` (main.py): `title: str, min_length=1, max_length=200`;
`description: Optional[str] = "", max_length=2000`; `rating: float, ge=0,
le=10`; `poster_url: Optional[str] = None`; `genres: Optional[List[str]] =
None`.  Errors are collected per field, in field-declaration order. -/
def validateMovieIn (r : RawMovieInput) :
    Except (List (String × VKind)) ValidatedMovie :=
  let terrs : List (String × VKind) :=
    match r.title with
    | .absent => [("title", .required)]
    | .null => [("title", .invalidType)]
    | .val s =>
        if s.length < 1 then [("title", .tooShort)]
        else if 200 < s.length then [("title", .tooLong)]
        else []
  let derrs : List (String × VKind) :=
    match r.description with
    | .val s => if 2000 < s.length then [("description", .tooLong)] else []
    | _ => []
  let rerrs : List (String × VKind) :=
    match r.rating with
    | .absent => [("rating", .required)]
    | .null => [("rating", .invalidType)]
    | .val q => if q < 0 then [("rating", .outOfRange)]
                else if 10 < q then [("rating", .outOfRange)]
                else []
  let errs := terrs ++ derrs ++ rerrs
  if errs.isEmpty then
    match r.title, r.rating with
    | .val s, .val q =>
        .ok { title := s
              description :=
                match r.description with
                | .absent => some ""
                | .null => none
                | .val ds => some ds
              rating := q
              poster_url :=
                match r.poster_url with
                | .val ps => some ps
                | _ => none
              genres :=
                match r.genres with
                | .val gs => some gs
                | _ => none }
    | _, _ => .error errs
  else .error errs

/-- `schemas.Movie` applied to a raw payload: its field constraints, translated
independently from `schemas.py` (`title: str, min_length=1, max_length=200`;
`description: Optional[str] = "", max_length=2000`; `rating: float, ge=0,
le=10`; `poster_url: Optional[str] = None`; `genres: Optional[List[str]] =
None`). -/
def validateMovieSchemaRaw (r : RawMovieInput) :
    Except (List (String × VKind)) ValidatedMovie :=
  let terrs : List (String × VKind) :=
    match r.title with
    | .absent => [("title", .required)]
    | .null => [("title", .invalidType)]
    | .val s =>
        if s.length < 1 then [("title", .tooShort)]
        else if 200 < s.length then [("title", .tooLong)]
        else []
  let derrs : List (String × VKind) :=
    match r.description with
    | .val s => if 2000 < s.length then [("description", .tooLong)] else []
    | _ => []
  let rerrs : List (String × VKind) :=
    match r.rating with
    | .absent => [("rating", .required)]
    | .null => [("rating", .invalidType)]
    | .val q => if q < 0 then [("rating", .outOfRange)]
                else if 10 < q then [("rating", .outOfRange)]
                else []
  let errs := terrs ++ derrs ++ rerrs
  if errs.isEmpty then
    match r.title, r.rating with
    | .val s, .val q =>
        .ok { title := s
              description :=
                match r.description with
                | .absent => some ""
                | .null => none
                | .val ds => some ds
              rating := q
              poster_url :=
                match r.poster_url with
                | .val ps => some ps
                | _ => none
              genres :=
                match r.genres with
                | .val gs => some gs
                | _ => none }
    | _, _ => .error errs
  else .error errs

/-- `schemas.Movie(**payload.model_dump())` in `add_movie`: the storage-schema
constraints checked on the dump of an already-validated `MovieIn` model. -/
def movieSchemaAcceptsDump (m : ValidatedMovie) : Bool :=
  (1 ≤ m.title.length && m.title.length ≤ 200) &&
  (match m.description with
   | none => true
   | some s => s.length ≤ 2000) &&
  (0 ≤ m.rating && m.rating ≤ 10)

/-- One field's contribution to `model_dump(exclude_unset=True)`: nothing when
the field was absent, its JSON value (null included) when it was set. -/
def fieldEntry {α : Type} (name : String) (f : FieldIn α) (emb : α → Value) :
    Doc :=
  match f with
  | .absent => []
  | .null => [(name, Value.null)]
  | .val a => [(name, emb a)]

/-- `payload.model_dump(exclude_unset=True)` for a `MovieUpdate` payload: the
merge set, containing exactly the fields present in the input, in
field-declaration order, with explicit nulls preserved. -/
def mergeSet (r : RawMovieInput) : Doc :=
  fieldEntry "title" r.title Value.str ++
  fieldEntry "description" r.description Value.str ++
  fieldEntry "rating" r.rating Value.num ++
  fieldEntry "poster_url" r.poster_url Value.str ++
  fieldEntry "genres" r.genres Value.arr

/-- `MovieUpdate` (main.py): every field optional (`None` default), each
present non-null value checked against the same per-field constraints as
`MovieIn` (`title`: 1–200 chars, `description`: ≤ 2000 chars, `rating`:
0–10); explicit `null` passes validation for every field because each is
`Optional`.  On success the handler works with the exclude-unset dump, i.e.
the merge set. -/
def validateMovieUpdate (r : RawMovieInput) :
    Except (List (String × VKind)) Doc :=
  let terrs : List (String × VKind) :=
    match r.title with
    | .val s =>
        if s.length < 1 then [("title", .tooShort)]
        else if 200 < s.length then [("title", .tooLong)]
        else []
    | _ => []
  let derrs : List (String × VKind) :=
    match r.description with
    | .val s => if 2000 < s.length then [("description", .tooLong)] else []
    | _ => []
  let rerrs : List (String × VKind) :=
    match r.rating with
    | .val q => if q < 0 then [("rating", .outOfRange)]
                else if 10 < q then [("rating", .outOfRange)]
                else []
    | _ => []
  let errs := terrs ++ derrs ++ rerrs
  if errs.isEmpty then .ok (mergeSet r) else .error errs

/-- `model_dump()` of a validated `MovieIn` payload, as the document handed to
`create_document` (Python `None` becomes BSON null). -/
def optStrV : Option String → Value
  | none => Value.null
  | some s => Value.str s

/-- `model_dump()` of the optional genre list. -/
def optGenresV : Option (List String) → Value
  | none => Value.null
  | some xs => Value.arr xs

/-- The storage document inserted for a validated creation payload
(`payload.model_dump()`), before the storage engine adds `_id`. -/
def ValidatedMovie.toDoc (m : ValidatedMovie) : Doc :=
  [("title", Value.str m.title),
   ("description", optStrV m.description),
   ("rating", Value.num m.rating),
   ("poster_url", optStrV m.poster_url),
   ("genres", optGenresV m.genres)]

/-- The dict built by `serialize_movie` (the spec's `to_output`). -/
structure SerializedMovie where
  id : String
  title : Value
  description : Value
  rating : ℚ
  poster_url : Value
  genres : Value
  created_at : Value
  updated_at : Value
deriving DecidableEq, Repr

/-- Python `str()` of the looked-up `_id` value: `str(None)` is `"None"`,
`str(ObjectId(h))` is `h`.  (The numeric and array cases approximate Python's
repr; no operation in this system stores such an `_id`.) -/
def pyStr : Option Value → String
  | none => "None"
  | some Value.null => "None"
  | some (Value.oid h) => h
  | some (Value.str s) => s
  | some (Value.num q) => toString q
  | some (Value.arr _) => "[...]"

/-- Python `float()` coercion of a stored rating value: exact on numbers;
raises (`none`) on `None`, lists and identifiers.  (Python also parses numeric
strings; no operation in this system stores a string rating, and no theorem
below exercises that branch.) -/
def pyFloat : Value → Option ℚ
  | Value.num q => some q
  | _ => none

/-- `serialize_movie` (main.py): defaults `title`/`description` to `""` and
`rating` to `0` when the key is absent, passes `poster_url`, `genres` and the
timestamps through (absent becomes null), stringifies `_id`.  `none` models
the `TypeError` that `float(...)` raises on a non-numeric stored rating. -/
def serializeMovie (d : Doc) : Option SerializedMovie :=
  match pyFloat (d.getD "rating" (Value.num 0)) with
  | none => none
  | some q =>
      some { id := pyStr (d.get "_id")
             title := d.getD "title" (Value.str "")
             description := d.getD "description" (Value.str "")
             rating := q
             poster_url := d.getD "poster_url" Value.null
             genres := d.getD "genres" Value.null
             created_at := d.getD "created_at" Value.null
             updated_at := d.getD "updated_at" Value.null }

/-- `MovieOut(**serialize_movie(doc))` and the `response_model=MovieOut`
re-validation: `MovieOut` inherits `MovieIn`'s constraints, so the serialized
fields must fit them (`id` any string, `title` a 1–200-char string,
`description` null or a ≤ 2000-char string, `rating` in 0–10, `poster_url`
null or a string, `genres` null or a string array). -/
def movieOutAccepts (o : SerializedMovie) : Bool :=
  (match o.title with
   | Value.str s => 1 ≤ s.length && s.length ≤ 200
   | _ => false) &&
  (match o.description with
   | Value.null => true
   | Value.str s => s.length ≤ 2000
   | _ => false) &&
  (0 ≤ o.rating && o.rating ≤ 10) &&
  (match o.poster_url with
   | Value.null => true
   | Value.str _ => true
   | _ => false) &&
  (match o.genres with
   | Value.null => true
   | Value.arr _ => true
   | _ => false)

/-- The `movie` collection: the list of stored documents, each carrying its
`_id` binding.  A freshly inserted document is placed at the head; together
with first-match lookup this models lookup by a storage-assigned fresh
identifier. -/
abbrev Store := List Doc

/-- `db["movie"].find_one({"_id": oid})`: the first document whose `_id` is
the given identifier. -/
def Store.findOne (st : Store) (h : String) : Option Doc :=
  st.find? (fun d => d.get "_id" == some (Value.oid h))

/-- `db["movie"].delete_one({"_id": oid})`: remove the first matching
document; also return `deleted_count`. -/
def Store.deleteOne : Store → String → Store × Nat
  | [], _ => ([], 0)
  | d :: st, h =>
      if d.get "_id" == some (Value.oid h) then (st, 1)
      else
        let r := Store.deleteOne st h
        (d :: r.1, r.2)

/-- `db["movie"].update_one({"_id": oid}, {"$set": u})`: apply the merge set
to the first matching document; no match modifies nothing. -/
def Store.updateOne : Store → String → Doc → Store
  | [], _, _ => []
  | d :: st, h, u =>
      if d.get "_id" == some (Value.oid h) then d.applySet u :: st
      else d :: Store.updateOne st h u

/-- The error outcomes of the handlers.  All but `serverError` are client
errors (4xx); `serverError` models an unhandled exception (500). -/
inductive AppError where
  | invalidId
  | noFields
  | notFound
  | validation (es : List (String × VKind))
  | serverError
deriving DecidableEq, Repr

/-- Whether an error is reported to the client as a 4xx. -/
def AppError.isClientError : AppError → Bool
  | .serverError => false
  | _ => true

/-- A storage call, recorded in the order the handler attempts it. -/
inductive StorageOp where
  | insertOne (d : Doc)
  | findOne (h : String)
  | updateOne (h : String) (u : Doc)
  | deleteOne (h : String)
deriving DecidableEq, Repr

/-- The outcome of one handler run: the response, the store it leaves behind,
and the storage calls it attempted. -/
structure HandlerResult (α : Type) where
  result : Except AppError α
  store : Store
  ops : List StorageOp
deriving Repr

/-- A hexadecimal digit: `0`–`9`, `a`–`f`, `A`–`F`. -/
def isHexChar (c : Char) : Bool :=
  c.isDigit || (Char.ofNat 97 ≤ c && c ≤ Char.ofNat 102) ||
    (Char.ofNat 65 ≤ c && c ≤ Char.ofNat 70)

/-- Whether a string matches the native identifier grammar: exactly 24
hexadecimal characters. -/
def isObjectIdString (s : String) : Bool :=
  s.length = 24 && s.toList.all isHexChar

/-- Modelled from the spec: `bson.ObjectId(s)` — the storage engine's native
identifier constructor, external to this repository — accepts exactly the
strings matching the native identifier grammar, a fixed-length (24-character)
hexadecimal token, and raises on every other string (wrong length, non-hex
characters, the empty string).  This is the spec's `parse_identifier`. -/
def parseObjectId (s : String) : Option String :=
  if isObjectIdString s then some s else none

/-- `delete_movie` (main.py): parse the identifier (400 on failure, before any
storage call), then `delete_one`; 404 when nothing was deleted. -/
def deleteMovie (st : Store) (movieId : String) : HandlerResult Unit :=
  match parseObjectId movieId with
  | none => ⟨.error .invalidId, st, []⟩
  | some h =>
      let r := Store.deleteOne st h
      if r.2 = 0 then ⟨.error .notFound, r.1, [.deleteOne h]⟩
      else ⟨.ok (), r.1, [.deleteOne h]⟩

/-- `update_movie` (main.py), including the framework's body validation which
runs before the handler: validate the `MovieUpdate` body (422 before any
storage call), parse the identifier (400), reject an empty merge set (400),
then `update_one` with `$set`, `find_one` (404 when absent), and serialize the
result through `serialize_movie` and the `MovieOut` response model (an
exception there is a 500, after the write). -/
def updateMovie (st : Store) (movieId : String) (payload : RawMovieInput) :
    HandlerResult SerializedMovie :=
  match validateMovieUpdate payload with
  | .error es => ⟨.error (.validation es), st, []⟩
  | .ok u =>
      match parseObjectId movieId with
      | none => ⟨.error .invalidId, st, []⟩
      | some h =>
          if u.isEmpty then ⟨.error .noFields, st, []⟩
          else
            let st' := Store.updateOne st h u
            match Store.findOne st' h with
            | none => ⟨.error .notFound, st', [.updateOne h u, .findOne h]⟩
            | some d =>
                match serializeMovie d with
                | none =>
                    ⟨.error .serverError, st', [.updateOne h u, .findOne h]⟩
                | some o =>
                    if movieOutAccepts o then
                      ⟨.ok o, st', [.updateOne h u, .findOne h]⟩
                    else
                      ⟨.error .serverError, st', [.updateOne h u, .findOne h]⟩

/-- `add_movie` (main.py), including the framework's body validation:
validate the `MovieIn` body (422 before any storage call), re-validate the
dump through `schemas.Movie` (an exception there would be a 500, still before
any storage call), insert the dump (the storage engine assigns the fresh
identifier `freshId`), read the document back and serialize it. -/
def addMovie (st : Store) (freshId : String) (payload : RawMovieInput) :
    HandlerResult SerializedMovie :=
  match validateMovieIn payload with
  | .error es => ⟨.error (.validation es), st, []⟩
  | .ok m =>
      if movieSchemaAcceptsDump m then
        let d : Doc := ("_id", Value.oid freshId) :: m.toDoc
        let st' := d :: st
        let ops : List StorageOp := [.insertOne d, .findOne freshId]
        match Store.findOne st' freshId with
        | none => ⟨.error .notFound, st', ops⟩
        | some doc =>
            match serializeMovie doc with
            | none => ⟨.error .serverError, st', ops⟩
            | some o =>
                if movieOutAccepts o then ⟨.ok o, st', ops⟩
                else ⟨.error .serverError, st', ops⟩
      else ⟨.error .serverError, st, []⟩

/-- The spec's stored-record invariants: a persisted movie has a title of 1 to
200 characters and a numeric rating in [0, 10]. -/
def movieInvariant (d : Doc) : Bool :=
  (match d.get "title" with
   | some (Value.str s) => 1 ≤ s.length && s.length ≤ 200
   | _ => false) &&
  (match d.get "rating" with
   | some (Value.num q) => 0 ≤ q && q ≤ 10
   | _ => false)

/-- One mutating request against the movie collection. -/
inductive Request where
  | create (freshId : String) (p : RawMovieInput)
  | update (movieId : String) (p : RawMovieInput)
  | del (movieId : String)
deriving Repr

/-- The store left behind by one request. -/
def stepStore (st : Store) : Request → Store
  | .create h p => (addMovie st h p).store
  | .update i p => (updateMovie st i p).store
  | .del i => (deleteMovie st i).store

/-- An update payload that does not explicitly null the invariant-bearing
fields (create and delete requests qualify unconditionally). -/
def Request.nullSafe : Request → Bool
  | .update _ p => !(p.title == FieldIn.null) && !(p.rating == FieldIn.null)
  | _ => true

/-! ### Document and merge-set lemmas -/

theorem Doc.get_set_self (d : Doc) (k : String) (v : Value) :
    (d.set k v).get k = some v := by
  induction d with
  | nil => simp [Doc.set, Doc.get]
  | cons kv d ih =>
      obtain ⟨k', v'⟩ := kv
      by_cases hk : k' = k
      · subst hk; simp [Doc.set, Doc.get]
      · simp [Doc.set, Doc.get, hk, ih]

theorem Doc.get_set_ne (d : Doc) (k k' : String) (v : Value) (hk : k ≠ k') :
    (d.set k v).get k' = d.get k' := by
  induction d with
  | nil => simp [Doc.set, Doc.get, hk]
  | cons kv d ih =>
      obtain ⟨k₀, v₀⟩ := kv
      by_cases h0 : k₀ = k
      · subst h0; simp [Doc.set, Doc.get, hk]
      · by_cases h1 : k₀ = k'
        · subst h1; simp [Doc.set, Doc.get, h0]
        · simp [Doc.set, Doc.get, h0, h1, ih]

theorem Doc.applySet_cons (d : Doc) (kv : String × Value) (u : Doc) :
    d.applySet (kv :: u) = (d.set kv.1 kv.2).applySet u := rfl

theorem Doc.get_applySet_notMem (d : Doc) (u : Doc) (k : String)
    (h : k ∉ u.map Prod.fst) : (d.applySet u).get k = d.get k := by
  induction u generalizing d with
  | nil => rfl
  | cons kv u ih =>
      obtain ⟨k₀, v₀⟩ := kv
      simp only [List.map_cons, List.mem_cons, not_or] at h
      rw [Doc.applySet_cons, ih _ h.2, Doc.get_set_ne]
      exact fun hk => h.1 hk.symm

theorem Doc.get_applySet_mem (d : Doc) (u : Doc) (k : String) (v : Value)
    (hn : (u.map Prod.fst).Nodup) (hm : (k, v) ∈ u) :
    (d.applySet u).get k = some v := by
  induction u generalizing d with
  | nil => cases hm
  | cons kv u ih =>
      obtain ⟨k₀, v₀⟩ := kv
      simp only [List.map_cons, List.nodup_cons] at hn
      rcases List.mem_cons.mp hm with heq | htail
      · cases heq
        rw [Doc.applySet_cons, Doc.get_applySet_notMem _ _ _ hn.1,
          Doc.get_set_self]
      · exact Doc.applySet_cons .. ▸ ih _ hn.2 htail

theorem mergeSet_keys_nodup (p : RawMovieInput) :
    ((mergeSet p).map Prod.fst).Nodup := by
  obtain ⟨t, de, r, po, g⟩ := p
  cases t <;> cases de <;> cases r <;> cases po <;> cases g <;>
    simp [mergeSet, fieldEntry]

theorem mem_keys_mergeSet (p : RawMovieInput) (k : String) :
    k ∈ (mergeSet p).map Prod.fst ↔
      (k = "title" ∧ p.title ≠ .absent) ∨
      (k = "description" ∧ p.description ≠ .absent) ∨
      (k = "rating" ∧ p.rating ≠ .absent) ∨
      (k = "poster_url" ∧ p.poster_url ≠ .absent) ∨
      (k = "genres" ∧ p.genres ≠ .absent) := by
  obtain ⟨t, de, r, po, g⟩ := p
  cases t <;> cases de <;> cases r <;> cases po <;> cases g <;>
    simp [mergeSet, fieldEntry]

theorem get_applySet_mergeSet_title (d : Doc) (p : RawMovieInput) :
    (d.applySet (mergeSet p)).get "title" =
      (match p.title with
       | .absent => d.get "title"
       | .null => some Value.null
       | .val s => some (Value.str s)) := by
  cases ht : p.title with
  | absent =>
      exact Doc.get_applySet_notMem _ _ _
        (by rw [mem_keys_mergeSet]; simp [ht])
  | null =>
      exact Doc.get_applySet_mem _ _ _ _ (mergeSet_keys_nodup p)
        (by simp [mergeSet, fieldEntry, ht])
  | val s =>
      exact Doc.get_applySet_mem _ _ _ _ (mergeSet_keys_nodup p)
        (by simp [mergeSet, fieldEntry, ht])

theorem get_applySet_mergeSet_description (d : Doc) (p : RawMovieInput) :
    (d.applySet (mergeSet p)).get "description" =
      (match p.description with
       | .absent => d.get "description"
       | .null => some Value.null
       | .val s => some (Value.str s)) := by
  cases hd : p.description with
  | absent =>
      exact Doc.get_applySet_notMem _ _ _
        (by rw [mem_keys_mergeSet]; simp [hd])
  | null =>
      exact Doc.get_applySet_mem _ _ _ _ (mergeSet_keys_nodup p)
        (by simp [mergeSet, fieldEntry, hd])
  | val s =>
      exact Doc.get_applySet_mem _ _ _ _ (mergeSet_keys_nodup p)
        (by simp [mergeSet, fieldEntry, hd])

theorem get_applySet_mergeSet_rating (d : Doc) (p : RawMovieInput) :
    (d.applySet (mergeSet p)).get "rating" =
      (match p.rating with
       | .absent => d.get "rating"
       | .null => some Value.null
       | .val q => some (Value.num q)) := by
  cases hr : p.rating with
  | absent =>
      exact Doc.get_applySet_notMem _ _ _
        (by rw [mem_keys_mergeSet]; simp [hr])
  | null =>
      exact Doc.get_applySet_mem _ _ _ _ (mergeSet_keys_nodup p)
        (by simp [mergeSet, fieldEntry, hr])
  | val q =>
      exact Doc.get_applySet_mem _ _ _ _ (mergeSet_keys_nodup p)
        (by simp [mergeSet, fieldEntry, hr])

theorem get_applySet_mergeSet_poster (d : Doc) (p : RawMovieInput) :
    (d.applySet (mergeSet p)).get "poster_url" =
      (match p.poster_url with
       | .absent => d.get "poster_url"
       | .null => some Value.null
       | .val s => some (Value.str s)) := by
  cases hp : p.poster_url with
  | absent =>
      exact Doc.get_applySet_notMem _ _ _
        (by rw [mem_keys_mergeSet]; simp [hp])
  | null =>
      exact Doc.get_applySet_mem _ _ _ _ (mergeSet_keys_nodup p)
        (by simp [mergeSet, fieldEntry, hp])
  | val s =>
      exact Doc.get_applySet_mem _ _ _ _ (mergeSet_keys_nodup p)
        (by simp [mergeSet, fieldEntry, hp])

theorem get_applySet_mergeSet_genres (d : Doc) (p : RawMovieInput) :
    (d.applySet (mergeSet p)).get "genres" =
      (match p.genres with
       | .absent => d.get "genres"
       | .null => some Value.null
       | .val xs => some (Value.arr xs)) := by
  cases hg : p.genres with
  | absent =>
      exact Doc.get_applySet_notMem _ _ _
        (by rw [mem_keys_mergeSet]; simp [hg])
  | null =>
      exact Doc.get_applySet_mem _ _ _ _ (mergeSet_keys_nodup p)
        (by simp [mergeSet, fieldEntry, hg])
  | val xs =>
      exact Doc.get_applySet_mem _ _ _ _ (mergeSet_keys_nodup p)
        (by simp [mergeSet, fieldEntry, hg])

/-! ### Validator inversion lemmas -/

theorem validateMovieUpdate_ok (p : RawMovieInput) (u : Doc)
    (h : validateMovieUpdate p = .ok u) :
    u = mergeSet p ∧
    (∀ s, p.title = .val s → 1 ≤ s.length ∧ s.length ≤ 200) ∧
    (∀ s, p.description = .val s → s.length ≤ 2000) ∧
    (∀ q, p.rating = .val q → 0 ≤ q ∧ q ≤ 10) := by
  simp only [validateMovieUpdate] at h
  split at h
  case isFalse => cases h
  case isTrue hc =>
    injection h with h
    subst h
    simp only [List.isEmpty_eq_true, List.append_eq_nil] at hc
    obtain ⟨⟨hct, hcd⟩, hcr⟩ := hc
    refine ⟨rfl, ?_, ?_, ?_⟩
    · intro s hs
      rw [hs] at hct
      simp at hct
      split_ifs at hct with h1 h2
      omega
    · intro s hs
      rw [hs] at hcd
      simp at hcd
      exact hcd
    · intro q hq
      rw [hq] at hcr
      simp at hcr
      split_ifs at hcr with h1 h2
      constructor <;> linarith

theorem validateMovieIn_ok (p : RawMovieInput) (m : ValidatedMovie)
    (h : validateMovieIn p = .ok m) :
    p.title = .val m.title ∧ 1 ≤ m.title.length ∧ m.title.length ≤ 200 ∧
    p.rating = .val m.rating ∧ 0 ≤ m.rating ∧ m.rating ≤ 10 ∧
    m.description = (match p.description with
                     | .absent => some ""
                     | .null => none
                     | .val ds => some ds) ∧
    (∀ s, m.description = some s → s.length ≤ 2000) ∧
    m.poster_url = (match p.poster_url with
                    | .val ps => some ps
                    | _ => none) ∧
    m.genres = (match p.genres with
                | .val gs => some gs
                | _ => none) := by
  simp only [validateMovieIn] at h
  split at h
  case isFalse => cases h
  case isTrue hc =>
    simp only [List.isEmpty_eq_true, List.append_eq_nil] at hc
    obtain ⟨⟨hct, hcd⟩, hcr⟩ := hc
    split at h
    case h_2 => cases h
    case h_1 s q hts hrq =>
      injection h with h
      subst h
      rw [hts] at hct
      simp at hct
      rw [hrq] at hcr
      simp at hcr
      split_ifs at hct with ht1 ht2
      split_ifs at hcr with hr1 hr2
      refine ⟨by simp [hts], by show 1 ≤ s.length; omega,
        by show s.length ≤ 200; omega, by simp [hrq],
        by show (0 : ℚ) ≤ q; linarith, by show (q : ℚ) ≤ 10; linarith,
        rfl, ?_, rfl, rfl⟩
      intro s' hs'
      cases hpd : p.description with
      | absent =>
          rw [hpd] at hs'
          simp at hs'
          subst hs'
          simp
      | null => rw [hpd] at hs'; cases hs'
      | val ds =>
          rw [hpd] at hcd
          simp at hcd
          rw [hpd] at hs'
          simp at hs'
          subst hs'
          exact hcd

/-! ### Store lemmas -/

theorem Store.mem_updateOne (st : Store) (h : String) (u : Doc) (d' : Doc)
    (hm : d' ∈ Store.updateOne st h u) :
    d' ∈ st ∨ ∃ d ∈ st, d' = d.applySet u := by
  induction st with
  | nil => cases hm
  | cons d st ih =>
      simp only [Store.updateOne] at hm
      split at hm
      · rcases List.mem_cons.mp hm with heq | htail
        · exact Or.inr ⟨d, List.mem_cons_self .., heq⟩
        · exact Or.inl (List.mem_cons_of_mem _ htail)
      · rcases List.mem_cons.mp hm with heq | htail
        · exact Or.inl (heq ▸ List.mem_cons_self ..)
        · rcases ih htail with hin | ⟨d₀, hd₀, heq₀⟩
          · exact Or.inl (List.mem_cons_of_mem _ hin)
          · exact Or.inr ⟨d₀, List.mem_cons_of_mem _ hd₀, heq₀⟩

theorem Store.mem_deleteOne (st : Store) (h : String) (d' : Doc)
    (hm : d' ∈ (Store.deleteOne st h).1) : d' ∈ st := by
  induction st with
  | nil => cases hm
  | cons d st ih =>
      simp only [Store.deleteOne] at hm
      split at hm
      · exact List.mem_cons_of_mem _ hm
      · rcases List.mem_cons.mp hm with heq | htail
        · exact heq ▸ List.mem_cons_self ..
        · exact List.mem_cons_of_mem _ (ih htail)

theorem addMovie_store (st : Store) (fid : String) (p : RawMovieInput) :
    (addMovie st fid p).store = st ∨
    ∃ m, validateMovieIn p = .ok m ∧
      (addMovie st fid p).store = (("_id", Value.oid fid) :: m.toDoc) :: st := by
  cases hv : validateMovieIn p with
  | error es => left; simp [addMovie, hv]
  | ok m =>
      by_cases hs : movieSchemaAcceptsDump m = true
      · right
        refine ⟨m, rfl, ?_⟩
        simp only [addMovie, hv, hs, if_true]
        split
        · rfl
        · split
          · rfl
          · split <;> rfl
      · left
        simp [addMovie, hv, hs]

theorem updateMovie_store (st : Store) (i : String) (p : RawMovieInput) :
    (updateMovie st i p).store = st ∨
    ∃ u h, validateMovieUpdate p = .ok u ∧ parseObjectId i = some h ∧
      (updateMovie st i p).store = Store.updateOne st h u := by
  cases hv : validateMovieUpdate p with
  | error es => left; simp [updateMovie, hv]
  | ok u =>
      cases hp : parseObjectId i with
      | none => left; simp [updateMovie, hv, hp]
      | some h =>
          by_cases he : u.isEmpty = true
          · left; simp [updateMovie, hv, hp, he]
          · right
            refine ⟨u, h, rfl, rfl, ?_⟩
            simp only [updateMovie, hv, hp, he, if_false, Bool.false_eq_true]
            split
            · rfl
            · split
              · rfl
              · split <;> rfl

theorem deleteMovie_store (st : Store) (i : String) :
    (deleteMovie st i).store = st ∨
    ∃ h, parseObjectId i = some h ∧
      (deleteMovie st i).store = (Store.deleteOne st h).1 := by
  cases hp : parseObjectId i with
  | none => left; simp [deleteMovie, hp]
  | some h =>
      right
      refine ⟨h, rfl, ?_⟩
      simp only [deleteMovie, hp]
      split <;> rfl

/-! ### Invariant lemmas -/

theorem movieInvariant_createdDoc (fid : String) (m : ValidatedMovie)
    (h1 : 1 ≤ m.title.length) (h2 : m.title.length ≤ 200)
    (h3 : 0 ≤ m.rating) (h4 : m.rating ≤ 10) :
    movieInvariant (("_id", Value.oid fid) :: m.toDoc) = true := by
  simp [movieInvariant, ValidatedMovie.toDoc, Doc.get, h1, h2, h3, h4]

theorem movieInvariant_applySet (d : Doc) (p : RawMovieInput) (u : Doc)
    (hv : validateMovieUpdate p = .ok u)
    (hts : p.title ≠ .null) (hrs : p.rating ≠ .null)
    (hinv : movieInvariant d = true) :
    movieInvariant (d.applySet u) = true := by
  obtain ⟨hu, hbt, _, hbr⟩ := validateMovieUpdate_ok p u hv
  subst hu
  have ht := get_applySet_mergeSet_title d p
  have hr := get_applySet_mergeSet_rating d p
  simp only [movieInvariant, Bool.and_eq_true] at hinv ⊢
  constructor
  · cases hpt : p.title with
    | absent =>
        rw [hpt] at ht
        simp only [] at ht
        rw [ht]
        exact hinv.1
    | null => exact absurd hpt hts
    | val s =>
        rw [hpt] at ht
        simp only [] at ht
        rw [ht]
        obtain ⟨b1, b2⟩ := hbt s hpt
        simp [b1, b2]
  · cases hpr : p.rating with
    | absent =>
        rw [hpr] at hr
        simp only [] at hr
        rw [hr]
        exact hinv.2
    | null => exact absurd hpr hrs
    | val q =>
        rw [hpr] at hr
        simp only [] at hr
        rw [hr]
        obtain ⟨b1, b2⟩ := hbr q hpr
        simp [b1, b2]

theorem Doc.get_eq_of_mem_nodup (d : Doc) (k : String) (v : Value)
    (hn : (d.map Prod.fst).Nodup) (hm : (k, v) ∈ d) : d.get k = some v := by
  induction d with
  | nil => cases hm
  | cons kv d ih =>
      obtain ⟨k₀, v₀⟩ := kv
      simp only [List.map_cons, List.nodup_cons] at hn
      rcases List.mem_cons.mp hm with heq | htail
      · cases heq
        simp [Doc.get]
      · have hk : k₀ ≠ k := by
          intro he
          exact hn.1 (he ▸ List.mem_map_of_mem Prod.fst htail)
        simp [Doc.get, hk, ih hn.2 htail]

theorem movieSchemaAcceptsDump_of_ok (p : RawMovieInput) (m : ValidatedMovie)
    (h : validateMovieIn p = .ok m) : movieSchemaAcceptsDump m = true := by
  obtain ⟨-, h1, h2, -, h3, h4, -, hd, -, -⟩ := validateMovieIn_ok p m h
  simp only [movieSchemaAcceptsDump, Bool.and_eq_true, decide_eq_true_eq]
  refine ⟨⟨⟨h1, h2⟩, ?_⟩, h3, h4⟩
  cases hm : m.description with
  | none => simp
  | some s => simpa using hd s hm

theorem Store.findOne_cons_of_id (st : Store) (d : Doc) (fid : String)
    (hd : d.get "_id" = some (Value.oid fid)) :
    Store.findOne (d :: st) fid = some d := by
  simp [Store.findOne, List.find?, hd]

theorem serializeMovie_createdDoc (fid : String) (m : ValidatedMovie) :
    serializeMovie (("_id", Value.oid fid) :: m.toDoc) =
      some { id := fid
             title := Value.str m.title
             description := optStrV m.description
             rating := m.rating
             poster_url := optStrV m.poster_url
             genres := optGenresV m.genres
             created_at := Value.null
             updated_at := Value.null } := by
  simp [serializeMovie, ValidatedMovie.toDoc, Doc.getD, Doc.get, pyFloat, pyStr]

theorem movieOutAccepts_createdOut (fid : String) (m : ValidatedMovie)
    (h1 : 1 ≤ m.title.length) (h2 : m.title.length ≤ 200)
    (h3 : 0 ≤ m.rating) (h4 : m.rating ≤ 10)
    (hd : ∀ s, m.description = some s → s.length ≤ 2000) :
    movieOutAccepts
      { id := fid
        title := Value.str m.title
        description := optStrV m.description
        rating := m.rating
        poster_url := optStrV m.poster_url
        genres := optGenresV m.genres
        created_at := Value.null
        updated_at := Value.null } = true := by
  simp only [movieOutAccepts, Bool.and_eq_true, decide_eq_true_eq]
  refine ⟨⟨⟨⟨⟨h1, h2⟩, ?_⟩, h3, h4⟩, ?_⟩, ?_⟩
  · cases hm : m.description with
    | none => simp [optStrV]
    | some s => simpa [optStrV] using hd s hm
  · cases m.poster_url <;> simp [optStrV]
  · cases m.genres <;> simp [optGenresV]

/-! ### Claims -/

/-- C1: for every update payload containing only a subset of the movie fields,
`validate_update` produces a merge set containing exactly the fields present
in the input, and applying that merge set to an existing stored record leaves
every unmentioned field at its previously stored value. -/
theorem C1_update_merge_exact (p : RawMovieInput) (u : Doc)
    (h : validateMovieUpdate p = .ok u) :
    (("title" ∈ u.map Prod.fst ↔ p.title ≠ .absent) ∧
     ("description" ∈ u.map Prod.fst ↔ p.description ≠ .absent) ∧
     ("rating" ∈ u.map Prod.fst ↔ p.rating ≠ .absent) ∧
     ("poster_url" ∈ u.map Prod.fst ↔ p.poster_url ≠ .absent) ∧
     ("genres" ∈ u.map Prod.fst ↔ p.genres ≠ .absent)) ∧
    (∀ (d : Doc) (k : String), k ∉ u.map Prod.fst →
      (d.applySet u).get k = d.get k) := by
  obtain ⟨hu, -, -, -⟩ := validateMovieUpdate_ok p u h
  subst hu
  refine ⟨⟨?_, ?_, ?_, ?_, ?_⟩,
    fun d k hk => Doc.get_applySet_notMem d _ k hk⟩
  all_goals rw [mem_keys_mergeSet]
  all_goals simp

/-- C1 witness: a rating-only patch produces the merge set
`{rating: 7}` and leaves the stored title untouched. -/
theorem C1_update_merge_exact_witness :
    validateMovieUpdate ⟨.absent, .absent, .val 7, .absent, .absent⟩ =
      .ok [("rating", Value.num 7)] ∧
    (Doc.applySet [("title", Value.str "Old"), ("rating", Value.num 3)]
        [("rating", Value.num 7)]).get "title" = some (Value.str "Old") := by
  refine ⟨by rfl, ?_⟩
  exact (C1_update_merge_exact ⟨.absent, .absent, .val 7, .absent, .absent⟩
    [("rating", Value.num 7)] (by rfl)).2 _ "title" (by decide)

/-- C2 counterexample: the claimed invariant preservation fails.  Starting
from a store whose single record satisfies the invariants, the update payload
`{"title": null}` is accepted by `MovieUpdate` validation (every field is
`Optional`, so an explicit null passes), the `$set` write happens, and the
resulting stored record has a null title — violating `1 ≤ len(title)`. -/
theorem C2_counterexample :
    (∀ d ∈ ([[("_id", Value.oid "aaaaaaaaaaaaaaaaaaaaaaaa"),
              ("title", Value.str "Inception"),
              ("rating", Value.num 9)]] : Store), movieInvariant d = true) ∧
    validateMovieUpdate ⟨.null, .absent, .absent, .absent, .absent⟩ =
      .ok [("title", Value.null)] ∧
    (updateMovie [[("_id", Value.oid "aaaaaaaaaaaaaaaaaaaaaaaa"),
                   ("title", Value.str "Inception"),
                   ("rating", Value.num 9)]]
        "aaaaaaaaaaaaaaaaaaaaaaaa"
        ⟨.null, .absent, .absent, .absent, .absent⟩).store =
      [[("_id", Value.oid "aaaaaaaaaaaaaaaaaaaaaaaa"),
        ("title", Value.null), ("rating", Value.num 9)]] ∧
    movieInvariant [("_id", Value.oid "aaaaaaaaaaaaaaaaaaaaaaaa"),
        ("title", Value.null), ("rating", Value.num 9)] = false := by
  refine ⟨by decide, by rfl, by decide, by decide⟩

/-- C2 (amended): every record inserted by create satisfies the invariants
`1 ≤ len(title) ≤ 200` and `0 ≤ rating ≤ 10`, delete preserves them, and
update preserves them provided the payload does not explicitly set `title` or
`rating` to null; an explicitly-null `title`/`rating` in an update payload is
accepted and written, breaking the invariant (see the counterexample). -/
theorem C2_invariants_preserved_nullsafe (st : Store) (req : Request)
    (hst : ∀ d ∈ st, movieInvariant d = true) (hreq : req.nullSafe = true) :
    ∀ d ∈ stepStore st req, movieInvariant d = true := by
  intro d' hd'
  cases req with
  | create fid p =>
      simp only [stepStore] at hd'
      rcases addMovie_store st fid p with hs | ⟨m, hv, hs⟩
      · rw [hs] at hd'
        exact hst d' hd'
      · rw [hs] at hd'
        rcases List.mem_cons.mp hd' with rfl | hmem
        · obtain ⟨-, h1, h2, -, h3, h4, -, -, -, -⟩ := validateMovieIn_ok p m hv
          exact movieInvariant_createdDoc fid m h1 h2 h3 h4
        · exact hst _ hmem
  | update i p =>
      simp only [stepStore] at hd'
      rcases updateMovie_store st i p with hs | ⟨u, h, hv, hp, hs⟩
      · rw [hs] at hd'
        exact hst _ hd'
      · rw [hs] at hd'
        rcases Store.mem_updateOne st h u d' hd' with hmem | ⟨d0, hd0, rfl⟩
        · exact hst _ hmem
        · simp only [Request.nullSafe, Bool.and_eq_true, Bool.not_eq_true',
            beq_eq_false_iff_ne, ne_eq] at hreq
          exact movieInvariant_applySet d0 p u hv hreq.1 hreq.2 (hst _ hd0)
  | del i =>
      simp only [stepStore] at hd'
      rcases deleteMovie_store st i with hs | ⟨h, hp, hs⟩
      · rw [hs] at hd'
        exact hst _ hd'
      · rw [hs] at hd'
        exact hst _ (Store.mem_deleteOne st h d' hd')

/-- C2 witness: a null-free rating update on a store satisfying the
invariants leaves a store whose (single) record still satisfies them. -/
theorem C2_invariants_preserved_witness :
    movieInvariant [("_id", Value.oid "aaaaaaaaaaaaaaaaaaaaaaaa"),
        ("title", Value.str "Inception"), ("rating", Value.num 7)] = true := by
  refine C2_invariants_preserved_nullsafe
    [[("_id", Value.oid "aaaaaaaaaaaaaaaaaaaaaaaa"),
      ("title", Value.str "Inception"), ("rating", Value.num 9)]]
    (.update "aaaaaaaaaaaaaaaaaaaaaaaa"
      ⟨.absent, .absent, .val 7, .absent, .absent⟩)
    (by decide) (by decide) _ (by decide)

/-- C3: the creation path's second validation pass (`schemas.Movie`) enforces
the identical rule set as the request-model validation (`MovieIn`): the two
validators agree on every payload, and the storage-schema check run on the
dump of a validated payload never rejects it. -/
theorem C3_double_validation_equivalent :
    (∀ p : RawMovieInput, validateMovieIn p = validateMovieSchemaRaw p) ∧
    (∀ (p : RawMovieInput) (m : ValidatedMovie),
      validateMovieIn p = .ok m → movieSchemaAcceptsDump m = true) := by
  exact ⟨fun p => rfl, movieSchemaAcceptsDump_of_ok⟩

/-- C3 witness: the two validators agree on the Inception payload, and its
validated dump passes the storage-schema check. -/
theorem C3_double_validation_witness :
    validateMovieIn ⟨.val "Inception", .absent, .val 9, .absent, .absent⟩ =
      validateMovieSchemaRaw
        ⟨.val "Inception", .absent, .val 9, .absent, .absent⟩ ∧
    movieSchemaAcceptsDump ⟨"Inception", some "", 9, none, none⟩ = true := by
  exact ⟨C3_double_validation_equivalent.1 _,
    C3_double_validation_equivalent.2
      ⟨.val "Inception", .absent, .val 9, .absent, .absent⟩
      ⟨"Inception", some "", 9, none, none⟩ (by rfl)⟩

/-- C4: round-trip — for every creation payload accepted by `validate_create`
(`MovieIn`), the inserted record read back through `to_output`
(`serialize_movie`) has `title`, `rating`, `description`, `genres` and
`poster_url` identical to the validated input, with `description` equal to
the empty string when it was absent from the input. -/
theorem C4_create_roundtrip (st : Store) (fid : String) (p : RawMovieInput)
    (m : ValidatedMovie) (h : validateMovieIn p = .ok m) :
    ∃ o, (addMovie st fid p).result = .ok o ∧
      o.title = Value.str m.title ∧
      o.rating = m.rating ∧
      o.description = optStrV m.description ∧
      o.poster_url = optStrV m.poster_url ∧
      o.genres = optGenresV m.genres ∧
      (p.description = .absent → o.description = Value.str "") := by
  obtain ⟨-, h1, h2, -, h3, h4, hde, hdb, -, -⟩ := validateMovieIn_ok p m h
  have hs := movieSchemaAcceptsDump_of_ok p m h
  have hfind := Store.findOne_cons_of_id st (("_id", Value.oid fid) :: m.toDoc)
    fid (by simp [Doc.get])
  have hacc := movieOutAccepts_createdOut fid m h1 h2 h3 h4 hdb
  refine ⟨{ id := fid, title := Value.str m.title,
            description := optStrV m.description, rating := m.rating,
            poster_url := optStrV m.poster_url, genres := optGenresV m.genres,
            created_at := Value.null, updated_at := Value.null },
    ?_, rfl, rfl, rfl, rfl, rfl, ?_⟩
  · simp only [addMovie, h, hs, if_true, hfind, serializeMovie_createdDoc,
      hacc]
  · intro hda
    rw [hde, hda]
    rfl

/-- C4 witness: creating the Inception payload and reading it back yields the
input title, the defaulted empty description, and the input rating. -/
theorem C4_create_roundtrip_witness :
    ((addMovie [] "bbbbbbbbbbbbbbbbbbbbbbbb"
        ⟨.val "Inception", .absent, .val 9, .absent, .absent⟩).result.map
      (fun o => (o.title, o.description, o.rating))) =
      .ok (Value.str "Inception", Value.str "", (9 : ℚ)) := by
  obtain ⟨o, ho, ht, hr, hd, hp, hg, habs⟩ :=
    C4_create_roundtrip [] "bbbbbbbbbbbbbbbbbbbbbbbb"
      ⟨.val "Inception", .absent, .val 9, .absent, .absent⟩
      ⟨"Inception", some "", 9, none, none⟩ (by rfl)
  rw [ho]
  simp only [Except.map, ht, hr, habs rfl]

/-- C5: `parse_identifier` fails — with `InvalidIdentifier`, a client error —
on every string that is not a 24-character hexadecimal token (wrong length,
non-hex characters, or empty), and succeeds on every well-formed
24-character hexadecimal string.  (`bson.ObjectId` is external to the
repository; its grammar is modelled from the spec as `isObjectIdString`.) -/
theorem C5_parse_identifier (s : String) :
    (¬ (s.length = 24 ∧ ∀ c ∈ s.toList, isHexChar c = true) →
      parseObjectId s = none ∧
      (∀ st : Store, (deleteMovie st s).result = .error .invalidId) ∧
      AppError.isClientError .invalidId = true) ∧
    (s.length = 24 → (∀ c ∈ s.toList, isHexChar c = true) →
      parseObjectId s = some s) := by
  constructor
  · intro hbad
    have hb : isObjectIdString s = false := by
      simp only [isObjectIdString, Bool.and_eq_false_iff]
      rcases Decidable.not_and_iff_or_not.mp hbad with hl | hc
      · exact Or.inl (by simpa using hl)
      · exact Or.inr (by simpa [List.all_eq_true] using hc)
    refine ⟨by simp [parseObjectId, hb], fun st => ?_, rfl⟩
    simp [deleteMovie, parseObjectId, hb]
  · intro hl hc
    have hg : isObjectIdString s = true := by
      simp only [isObjectIdString, hl, Bool.and_eq_true, List.all_eq_true]
      exact ⟨by simp, fun c h => hc c h⟩
    simp [parseObjectId, hg]

/-- C5 witness: the spec's scenario string `"not-a-valid-id"` is rejected
before any storage call, and a well-formed 24-hex-character string parses. -/
theorem C5_parse_identifier_witness :
    parseObjectId "not-a-valid-id" = none ∧
    (deleteMovie [] "not-a-valid-id").result = .error .invalidId ∧
    parseObjectId "0123456789abcdef01234567" =
      some "0123456789abcdef01234567" := by
  obtain ⟨h1, h2, -⟩ := (C5_parse_identifier "not-a-valid-id").1 (by decide)
  exact ⟨h1, h2 [], (C5_parse_identifier "0123456789abcdef01234567").2
    (by decide) (by decide)⟩

/-- C6: an update payload in which zero fields are present is rejected with
`NoFieldsProvided` (a 400 client error), the store is unchanged, and no
storage call is attempted. -/
theorem C6_empty_update_rejected (st : Store) (i : String) (hid : String)
    (hp : parseObjectId i = some hid) (p : RawMovieInput)
    (ht : p.title = .absent) (hd : p.description = .absent)
    (hr : p.rating = .absent) (hpo : p.poster_url = .absent)
    (hg : p.genres = .absent) :
    (updateMovie st i p).result = .error .noFields ∧
    (updateMovie st i p).store = st ∧
    (updateMovie st i p).ops = [] := by
  obtain ⟨t, de, r, po, g⟩ := p
  simp only at ht hd hr hpo hg
  subst ht hd hr hpo hg
  refine ⟨?_, ?_, ?_⟩ <;>
    simp [updateMovie, validateMovieUpdate, mergeSet, fieldEntry, hp]

/-- C6 witness: the all-absent payload against a well-formed identifier
yields `NoFieldsProvided` with no storage call. -/
theorem C6_empty_update_rejected_witness :
    (updateMovie [] "aaaaaaaaaaaaaaaaaaaaaaaa"
        ⟨.absent, .absent, .absent, .absent, .absent⟩).result =
      .error .noFields ∧
    (updateMovie [] "aaaaaaaaaaaaaaaaaaaaaaaa"
        ⟨.absent, .absent, .absent, .absent, .absent⟩).ops = [] := by
  obtain ⟨h1, -, h3⟩ := C6_empty_update_rejected []
    "aaaaaaaaaaaaaaaaaaaaaaaa" "aaaaaaaaaaaaaaaaaaaaaaaa" (by decide)
    ⟨.absent, .absent, .absent, .absent, .absent⟩ rfl rfl rfl rfl rfl
  exact ⟨h1, h3⟩

/-- C7: `validate_create` fails with an `OutOfRange` error on field `rating`
for every creation payload whose rating is below 0 or above 10, and succeeds
(keeping title and rating unchanged) for every payload with a 1–200-character
title, a rating in [0, 10] and a valid description. -/
theorem C7_create_rating_validation (p : RawMovieInput) :
    (∀ q : ℚ, p.rating = .val q → (q < 0 ∨ 10 < q) →
      ∃ es, validateMovieIn p = .error es ∧
        ("rating", VKind.outOfRange) ∈ es) ∧
    (∀ (s : String) (q : ℚ), p.title = .val s → 1 ≤ s.length →
      s.length ≤ 200 → p.rating = .val q → 0 ≤ q → q ≤ 10 →
      (∀ ds, p.description = .val ds → ds.length ≤ 2000) →
      ∃ m, validateMovieIn p = .ok m ∧ m.title = s ∧ m.rating = q) := by
  constructor
  · intro q hq hrange
    have hr : (match p.rating with
        | FieldIn.absent => [("rating", VKind.required)]
        | FieldIn.null => [("rating", VKind.invalidType)]
        | FieldIn.val q => if q < 0 then [("rating", VKind.outOfRange)]
                    else if 10 < q then [("rating", VKind.outOfRange)]
                    else []) = [("rating", VKind.outOfRange)] := by
      rw [hq]
      rcases hrange with hlt | hgt
      · simp [hlt]
      · have h0 : ¬ q < 0 := by linarith
        simp [h0, hgt]
    simp only [validateMovieIn, hr]
    have hne : ¬ ((match p.title with
        | FieldIn.absent => [("title", VKind.required)]
        | FieldIn.null => [("title", VKind.invalidType)]
        | FieldIn.val s =>
            if s.length < 1 then [("title", VKind.tooShort)]
            else if 200 < s.length then [("title", VKind.tooLong)]
            else []) ++
        (match p.description with
         | FieldIn.val s =>
             if 2000 < s.length then [("description", VKind.tooLong)] else []
         | _ => []) ++
        [("rating", VKind.outOfRange)]).isEmpty = true := by
      simp [List.isEmpty_eq_true]
    rw [if_neg hne]
    exact ⟨_, rfl, by simp⟩
  · intro s q hts h1 h2 hrq h3 h4 hdesc
    have hlt1 : ¬ s.length < 1 := by omega
    have hlt2 : ¬ 200 < s.length := by omega
    have hq0 : ¬ q < 0 := by linarith
    have hq10 : ¬ 10 < q := by linarith
    have hde : (match p.description with
        | FieldIn.val s =>
            if 2000 < s.length then [("description", VKind.tooLong)] else []
        | _ => ([] : List (String × VKind))) = [] := by
      cases hd : p.description with
      | absent => rfl
      | null => rfl
      | val ds =>
          have := hdesc ds hd
          simp [Nat.not_lt.mpr this]
    simp only [validateMovieIn, hts, hrq, hde, if_neg hlt1, if_neg hlt2,
      if_neg hq0, if_neg hq10, List.append_nil, List.nil_append,
      List.isEmpty_nil, if_true]
    exact ⟨_, rfl, rfl, rfl⟩

/-- C7 witness: rating 11 is rejected as out of range on `rating`; the
Inception payload (rating 9) validates with title and rating unchanged. -/
theorem C7_create_rating_validation_witness :
    (∃ es, validateMovieIn ⟨.val "Inception", .absent, .val 11, .absent,
        .absent⟩ = .error es ∧ ("rating", VKind.outOfRange) ∈ es) ∧
    (∃ m, validateMovieIn ⟨.val "Inception", .absent, .val 9, .absent,
        .absent⟩ = .ok m ∧ m.title = "Inception" ∧ m.rating = 9) := by
  constructor
  · exact (C7_create_rating_validation
      ⟨.val "Inception", .absent, .val 11, .absent, .absent⟩).1 11 rfl
      (Or.inr (by norm_num))
  · exact (C7_create_rating_validation
      ⟨.val "Inception", .absent, .val 9, .absent, .absent⟩).2 "Inception" 9
      rfl (by decide) (by decide) rfl (by norm_num) (by norm_num)
      (fun ds h => by cases h)

/-- C8: every validation error — invalid identifier on delete and update,
`NoFieldsProvided` on update, and field validation errors on create and
update — is reported before any storage call: the handler attempts no storage
operation and leaves the store unchanged. -/
theorem C8_validation_before_storage (st : Store) (i : String)
    (p : RawMovieInput) :
    (parseObjectId i = none →
      (deleteMovie st i).ops = [] ∧ (deleteMovie st i).store = st) ∧
    (∀ es, validateMovieUpdate p = .error es →
      (updateMovie st i p).ops = [] ∧ (updateMovie st i p).store = st) ∧
    (parseObjectId i = none →
      (updateMovie st i p).ops = [] ∧ (updateMovie st i p).store = st) ∧
    (validateMovieUpdate p = .ok [] →
      (updateMovie st i p).ops = [] ∧ (updateMovie st i p).store = st) ∧
    (∀ es fid, validateMovieIn p = .error es →
      (addMovie st fid p).ops = [] ∧ (addMovie st fid p).store = st) := by
  refine ⟨?_, ?_, ?_, ?_, ?_⟩
  · intro hp
    constructor <;> simp [deleteMovie, hp]
  · intro es hv
    constructor <;> simp [updateMovie, hv]
  · intro hp
    cases hv : validateMovieUpdate p with
    | error es => constructor <;> simp [updateMovie, hv]
    | ok u => constructor <;> simp [updateMovie, hv, hp]
  · intro hv
    cases hp : parseObjectId i with
    | none => constructor <;> simp [updateMovie, hv, hp]
    | some hid => constructor <;> simp [updateMovie, hv, hp]
  · intro es fid hv
    constructor <;> simp [addMovie, hv]

/-- C8 witness: a malformed identifier on delete and update, an
out-of-range update payload, an empty update payload, and an invalid
creation payload each leave the (empty) store untouched with no storage
call. -/
theorem C8_validation_before_storage_witness :
    (deleteMovie [] "bad").ops = [] ∧
    (updateMovie [] "bad"
      ⟨.absent, .absent, .val 11, .absent, .absent⟩).ops = [] ∧
    (updateMovie [] "aaaaaaaaaaaaaaaaaaaaaaaa"
      ⟨.absent, .absent, .absent, .absent, .absent⟩).ops = [] ∧
    (addMovie [] "aaaaaaaaaaaaaaaaaaaaaaaa"
      ⟨.null, .absent, .val 9, .absent, .absent⟩).ops = [] := by
  refine ⟨((C8_validation_before_storage [] "bad"
      ⟨.absent, .absent, .val 11, .absent, .absent⟩).1 (by decide)).1,
    ((C8_validation_before_storage [] "bad"
      ⟨.absent, .absent, .val 11, .absent, .absent⟩).2.1
        [("rating", VKind.outOfRange)] (by rfl)).1,
    ((C8_validation_before_storage [] "aaaaaaaaaaaaaaaaaaaaaaaa"
      ⟨.absent, .absent, .absent, .absent, .absent⟩).2.2.2.1 (by rfl)).1,
    ((C8_validation_before_storage [] "x"
      ⟨.null, .absent, .val 9, .absent, .absent⟩).2.2.2.2
        [("title", VKind.invalidType)] "aaaaaaaaaaaaaaaaaaaaaaaa"
        (by rfl)).1⟩

/-- C9 (implicit): an update payload field explicitly present with value null
is included in the merge set with value null — the merge set distinguishes
explicitly-null from absent — and applying the merge set writes null into the
stored record for that field. -/
theorem C9_explicit_null_written (p : RawMovieInput) (u : Doc)
    (h : validateMovieUpdate p = .ok u) :
    (p.title = .null → u.get "title" = some Value.null ∧
      ∀ d : Doc, (d.applySet u).get "title" = some Value.null) ∧
    (p.description = .null → u.get "description" = some Value.null ∧
      ∀ d : Doc, (d.applySet u).get "description" = some Value.null) ∧
    (p.rating = .null → u.get "rating" = some Value.null ∧
      ∀ d : Doc, (d.applySet u).get "rating" = some Value.null) ∧
    (p.poster_url = .null → u.get "poster_url" = some Value.null ∧
      ∀ d : Doc, (d.applySet u).get "poster_url" = some Value.null) ∧
    (p.genres = .null → u.get "genres" = some Value.null ∧
      ∀ d : Doc, (d.applySet u).get "genres" = some Value.null) := by
  obtain ⟨hu, -, -, -⟩ := validateMovieUpdate_ok p u h
  subst hu
  have hn := mergeSet_keys_nodup p
  refine ⟨fun hf => ?_, fun hf => ?_, fun hf => ?_, fun hf => ?_,
    fun hf => ?_⟩ <;>
    exact ⟨Doc.get_eq_of_mem_nodup _ _ _ hn
        (by simp [mergeSet, fieldEntry, hf]),
      fun d => Doc.get_applySet_mem _ _ _ _ hn
        (by simp [mergeSet, fieldEntry, hf])⟩

/-- C9 witness: the payload `{"poster_url": null}` produces the merge set
`{poster_url: null}` and nulls the stored poster. -/
theorem C9_explicit_null_written_witness :
    Doc.get [("poster_url", Value.null)] "poster_url" =
      some Value.null ∧
    (Doc.applySet [("poster_url", Value.str "http://x")]
      [("poster_url", Value.null)]).get "poster_url" = some Value.null := by
  obtain ⟨-, -, -, hp, -⟩ := C9_explicit_null_written
    ⟨.absent, .absent, .absent, .null, .absent⟩
    [("poster_url", Value.null)] (by rfl)
  obtain ⟨h1, h2⟩ := hp rfl
  exact ⟨h1, h2 _⟩

/-- Whether a stored document's `rating` field, when present, is numeric —
the condition under which `float(doc.get("rating", 0))` cannot raise. -/
def ratingNumericOrAbsent (d : Doc) : Bool :=
  match d.get "rating" with
  | none => true
  | some (Value.num _) => true
  | _ => false

/-- C10 counterexample: `to_output` (`serialize_movie`) is not total on
arbitrary storage documents — on a document whose `rating` is null,
`float(None)` raises, so serialization fails. -/
theorem C10_counterexample :
    serializeMovie [("rating", Value.null)] = none := rfl

/-- C10 (amended): `to_output` is defined on every storage document whose
`rating`, when present, is numeric, and then applies the defaults the claim
states: missing `rating` becomes 0.0, missing `title` and `description`
become the empty string, and `id` is the string form of the document's
native identifier when `_id` is present. -/
theorem C10_to_output_defaults (d : Doc)
    (h : ratingNumericOrAbsent d = true) :
    ∃ o, serializeMovie d = some o ∧
      (d.get "rating" = none → o.rating = 0) ∧
      (d.get "title" = none → o.title = Value.str "") ∧
      (d.get "description" = none → o.description = Value.str "") ∧
      (∀ hid, d.get "_id" = some (Value.oid hid) → o.id = hid) := by
  cases hr : d.get "rating" with
  | none =>
      have hser : serializeMovie d = some
        { id := pyStr (d.get "_id")
          title := (d.get "title").getD (Value.str "")
          description := (d.get "description").getD (Value.str "")
          rating := 0
          poster_url := (d.get "poster_url").getD Value.null
          genres := (d.get "genres").getD Value.null
          created_at := (d.get "created_at").getD Value.null
          updated_at := (d.get "updated_at").getD Value.null } := by
        simp [serializeMovie, Doc.getD, hr, pyFloat]
      refine ⟨_, hser, fun _ => rfl, ?_, ?_, ?_⟩
      · intro ht
        simp [ht]
      · intro hd
        simp [hd]
      · intro hid hmem
        simp [pyStr, hmem]
  | some v =>
      cases v with
      | num q =>
          have hser : serializeMovie d = some
            { id := pyStr (d.get "_id")
              title := (d.get "title").getD (Value.str "")
              description := (d.get "description").getD (Value.str "")
              rating := q
              poster_url := (d.get "poster_url").getD Value.null
              genres := (d.get "genres").getD Value.null
              created_at := (d.get "created_at").getD Value.null
              updated_at := (d.get "updated_at").getD Value.null } := by
            simp [serializeMovie, Doc.getD, hr, pyFloat]
          refine ⟨_, hser, ?_, ?_, ?_, ?_⟩
          · intro hnone
            cases hnone
          · intro ht
            simp [ht]
          · intro hd
            simp [hd]
          · intro hid hmem
            simp [pyStr, hmem]
      | null => simp [ratingNumericOrAbsent, hr] at h
      | str s => simp [ratingNumericOrAbsent, hr] at h
      | arr xs => simp [ratingNumericOrAbsent, hr] at h
      | oid hh => simp [ratingNumericOrAbsent, hr] at h

/-- C10 witness: a document holding only an `_id` serializes, with defaulted
title and rating visible through the projections. -/
theorem C10_to_output_defaults_witness :
    (serializeMovie [("_id", Value.oid "0123456789abcdef01234567")]).isSome =
      true := by
  obtain ⟨o, ho, -⟩ :=
    C10_to_output_defaults [("_id", Value.oid "0123456789abcdef01234567")]
      (by decide)
  rw [ho]
  rfl
